import Mathlib

/-!
Verification of the library-management application
(`src/app.py`, `src/db_connection.py`).

The database state and the SQL statements issued by the Streamlit pages are
shallowly embedded: each table row becomes a structure, each page action
becomes a function from the database state (plus the form inputs and an
oracle for statement success) to a result and a new state.  Dates are
modelled as natural numbers (days); `CURRENT_DATE` becomes an explicit
`today` parameter.  Copy counts are `Int`, since the SQL `UPDATE` statements
decrement without a lower bound.
-/

namespace LibraryApp

/-- A row of the `Books` table (columns used by `src/app.py`; the DDL in
`src/db_connection.py` lines 261-276 also has Genre/ISBN/Description, which
no claim touches). -/
structure Book where
  bookId : Nat
  title : String
  author : String
  publishedYear : Int
  availableCopies : Int
deriving DecidableEq, Repr

/-- A row of the `Members` table (columns used by `src/app.py`). -/
structure Member where
  memberId : Nat
  name : String
  email : String
  phone : Option String
deriving DecidableEq, Repr

/-- A row of the `Borrowing` table.  `returnDate = none` models the SQL
`ReturnDate IS NULL`, i.e. an open loan. -/
structure BorrowRecord where
  borrowId : Nat
  memberId : Nat
  bookId : Nat
  borrowDate : Nat
  returnDate : Option Nat
deriving DecidableEq, Repr

/-- The database state: the three tables plus the `AUTO_INCREMENT` counters
of their primary keys. -/
structure DB where
  books : List Book
  members : List Member
  borrowing : List BorrowRecord
  nextBookId : Nat
  nextMemberId : Nat
  nextBorrowId : Nat
deriving DecidableEq, Repr

/-- A freshly initialised database: all tables empty, `AUTO_INCREMENT`
counters at 1. -/
def emptyDB : DB :=
  { books := [], members := [], borrowing := [],
    nextBookId := 1, nextMemberId := 1, nextBorrowId := 1 }

/-- Outcome reported to the user by a page action.  Each failure constructor
corresponds to one `st.error` call in `src/app.py`. -/
inductive OpResult where
  /-- a success message (`st.success`) was shown -/
  | success
  /-- app.py line 336: member already borrowed this book -/
  | alreadyBorrowed
  /-- app.py line 349 / 416: the first write failed -/
  | writeFailed
  /-- app.py line 347 / 414: the second write (copy-count update) failed -/
  | updateFailed
  /-- app.py line 351: member or book not selected -/
  | notSelected
  /-- app.py line 219: duplicate (Title, Author) -/
  | duplicateBook
  /-- app.py line 231 / 294: a required form field is empty -/
  | missingField
deriving DecidableEq, Repr

/-- Whether a borrowing row is an open loan for the pair `(m, b)` — the WHERE
clause `MemberID = %s AND BookID = %s AND ReturnDate IS NULL` of the
duplicate-loan check (app.py lines 330-333). -/
def openFor (m b : Nat) (r : BorrowRecord) : Bool :=
  r.memberId == m && r.bookId == b && r.returnDate.isNone

/-- The duplicate-loan check of the Borrow Book branch (app.py lines
329-336): is there an open loan of book `b` by member `m`? -/
def existingBorrow (db : DB) (m b : Nat) : Bool :=
  db.borrowing.any (openFor m b)

/-- `SELECT ... FROM Books WHERE AvailableCopies > 0` — the query that
populates the Borrow Book dropdown (app.py lines 315-318). -/
def availableBooks (db : DB) : List Book :=
  db.books.filter (fun bk => 0 < bk.availableCopies)

/-- `INSERT INTO Borrowing (MemberID, BookID, BorrowDate) VALUES
(%s, %s, CURRENT_DATE)` (app.py line 339): appends a row with the fresh
`AUTO_INCREMENT` id, `BorrowDate = today` and NULL `ReturnDate`. -/
def insertBorrow (db : DB) (m b today : Nat) : DB :=
  { db with
    borrowing := db.borrowing ++
      [{ borrowId := db.nextBorrowId, memberId := m, bookId := b,
         borrowDate := today, returnDate := none }],
    nextBorrowId := db.nextBorrowId + 1 }

/-- `UPDATE Books SET AvailableCopies = AvailableCopies - 1 WHERE BookID = %s`
(app.py line 340). -/
def decrementCopies (db : DB) (b : Nat) : DB :=
  { db with
    books := db.books.map fun bk =>
      if bk.bookId == b then
        { bk with availableCopies := bk.availableCopies - 1 }
      else bk }

/-- `UPDATE Books SET AvailableCopies = AvailableCopies + 1 WHERE BookID = %s`
(app.py line 408). -/
def incrementCopies (db : DB) (b : Nat) : DB :=
  { db with
    books := db.books.map fun bk =>
      if bk.bookId == b then
        { bk with availableCopies := bk.availableCopies + 1 }
      else bk }

/-- `UPDATE Borrowing SET ReturnDate = CURRENT_DATE WHERE BorrowID = %s`
(app.py line 398). -/
def setReturned (db : DB) (rid today : Nat) : DB :=
  { db with
    borrowing := db.borrowing.map fun r =>
      if r.borrowId == rid then { r with returnDate := some today } else r }

/-- The Borrow Book button branch (app.py lines 327-351).  `memberId` and
`bookId` are the resolved dropdown selections (`none` models Python `None`);
`insertOk` and `updateOk` are oracles for whether the two `execute_query`
write calls succeed. -/
def borrowClick (db : DB) (memberId bookId : Option Nat) (today : Nat)
    (insertOk updateOk : Bool) : OpResult × DB :=
  match memberId, bookId with
  | some m, some b =>
    if existingBorrow db m b then
      (.alreadyBorrowed, db)
    else if insertOk then
      if updateOk then
        (.success, decrementCopies (insertBorrow db m b today) b)
      else
        (.updateFailed, insertBorrow db m b today)
    else
      (.writeFailed, db)
  | _, _ => (.notSelected, db)

/-- The member dropdown of the Borrow Book page (app.py lines 303-311): a
member id resolves only if that member exists. -/
def resolveMember (db : DB) (m : Nat) : Option Nat :=
  if db.members.any (fun mem => mem.memberId == m) then some m else none

/-- The book dropdown of the Borrow Book page (app.py lines 313-325): a book
id resolves only if that book appears in the available-books query
(`AvailableCopies > 0`). -/
def resolveBook (db : DB) (b : Nat) : Option Nat :=
  if (availableBooks db).any (fun bk => bk.bookId == b) then some b else none

/-- The whole Borrow Book page action: dropdown resolution (lines 297-325)
followed by the button branch (lines 327-351). -/
def borrowPage (db : DB) (m b today : Nat) (insertOk updateOk : Bool) :
    OpResult × DB :=
  borrowClick db (resolveMember db m) (resolveBook db b) today insertOk updateOk

/-- The Return Book button branch (app.py lines 395-416).  The branch first
looks the record up (`SELECT BookID FROM Borrowing WHERE BorrowID = %s`,
lines 401-404) — with no restriction to open records — then updates
`ReturnDate` and increments the copy count of the book found.  `returnOk`
and `updateOk` are oracles for the two write calls. -/
def returnClick (db : DB) (borrowId : Option Nat) (today : Nat)
    (returnOk updateOk : Bool) : OpResult × DB :=
  match borrowId with
  | some rid =>
    match db.borrowing.find? (fun r => r.borrowId == rid) with
    | some rec =>
      if returnOk then
        if updateOk then
          (.success, incrementCopies (setReturned db rid today) rec.bookId)
        else
          (.updateFailed, setReturned db rid today)
      else
        (.writeFailed, db)
    | none => (.writeFailed, db)
  | none => (.writeFailed, db)

/-- The dropdown of the Return Book page (app.py lines 358-381) lists only
open loans (`WHERE b.ReturnDate IS NULL`): a record id resolves only if an
open record with that id exists. -/
def resolveReturn (db : DB) (rid : Nat) : Option Nat :=
  if db.borrowing.any (fun r => r.borrowId == rid && r.returnDate.isNone) then
    some rid
  else none

/-- The whole Return Book page action: dropdown resolution followed by the
button branch. -/
def returnPage (db : DB) (rid today : Nat) (returnOk updateOk : Bool) :
    OpResult × DB :=
  returnClick db (resolveReturn db rid) today returnOk updateOk

/-- The Add Book form submission (app.py lines 210-231): required-field
check, duplicate `(Title, Author)` check (lines 213-216), then
`INSERT INTO Books (Title, Author, PublishedYear, AvailableCopies)`.
`insertOk` is the oracle for the insert. -/
def addBook (db : DB) (title author : String) (year copies : Int)
    (insertOk : Bool) : OpResult × DB :=
  if title ≠ "" ∧ author ≠ "" then
    if db.books.any (fun bk => bk.title == title && bk.author == author) then
      (.duplicateBook, db)
    else if insertOk then
      (.success,
        { db with
          books := db.books ++
            [{ bookId := db.nextBookId, title := title, author := author,
               publishedYear := year, availableCopies := copies }],
          nextBookId := db.nextBookId + 1 })
    else
      (.writeFailed, db)
  else
    (.missingField, db)

/-- The Add Member form submission (app.py lines 277-294): required-field
check, basic email check, then `INSERT INTO Members`.  `insertOk` is the
oracle for the insert (a duplicate email makes it fail at the database). -/
def addMember (db : DB) (name email : String) (phone : Option String)
    (insertOk : Bool) : OpResult × DB :=
  if name ≠ "" ∧ email ≠ "" then
    if ¬ (email.contains '@' ∧ email.contains '.') then
      (.missingField, db)
    else if insertOk then
      (.success,
        { db with
          members := db.members ++
            [{ memberId := db.nextMemberId, name := name, email := email,
               phone := phone }],
          nextMemberId := db.nextMemberId + 1 })
    else
      (.writeFailed, db)
  else
    (.missingField, db)

/-- The statistics dictionary built by `get_dashboard_stats`
(app.py lines 87-107). -/
structure Stats where
  total_books : Nat
  total_members : Nat
  borrowed_books : Nat
  available_copies : Int
deriving DecidableEq, Repr

/-- `SELECT SUM(AvailableCopies) FROM Books` — SQL `SUM` over zero rows is
NULL, modelled as `none`. -/
def sumAvailableCopies (db : DB) : Option Int :=
  match db.books with
  | [] => none
  | _ => some ((db.books.map Book.availableCopies).sum)

/-- `get_dashboard_stats` (app.py lines 87-107): the four aggregate queries,
with the NULL sum mapped to 0 by the
`int(result[...]) if result and result[...] is not None else 0` guard on
line 105. -/
def get_dashboard_stats (db : DB) : Stats :=
  { total_books := db.books.length
    total_members := db.members.length
    borrowed_books := (db.borrowing.filter (fun r => r.returnDate.isNone)).length
    available_copies :=
      match sumAvailableCopies db with
      | some s => s
      | none => 0 }

/-! ### The connection layer (`src/db_connection.py`) -/

/-- Outcome of one connection attempt inside `DatabaseManager.get_connection`
(db_connection.py lines 67-88): the attempt raises a `mysql.connector.Error`,
or yields a connection that reports connected, or yields one that does not
(in which case the loop just moves on, lines 71-73 falling through). -/
inductive AttemptOutcome where
  | raisesError
  | connected
  | notConnected
deriving DecidableEq, Repr

/-- Errors surfaced by the connection layer. -/
inductive DbError where
  /-- the `raise` on line 88: the last attempt re-raises its `Error` -/
  | attemptsFailed
  /-- the `raise Error(...)` on line 90 after the loop ends without a
  connection -/
  | noConnection
  /-- a statement raised a `mysql.connector.Error` -/
  | queryError
deriving DecidableEq, Repr

/-- The retry loop of `DatabaseManager.get_connection` (db_connection.py
lines 62-90), with `max_retries = 3` and `retry_delay = 1`.  `outcomes i`
is the result of attempt `i` (0-based); the returned list records the
`time.sleep` delays performed, in order, and the `Except` value is the
connection (as its attempt index) or the raised error. -/
def getConnectionAux (outcomes : Nat → AttemptOutcome) :
    Nat → Nat → Nat → List Nat × Except DbError Nat
  | 0, _, _ => ([], .error .noConnection)
  | remaining + 1, attempt, delay =>
    match outcomes attempt with
    | .connected => ([], .ok attempt)
    | .notConnected => getConnectionAux outcomes remaining (attempt + 1) delay
    | .raisesError =>
      if remaining = 0 then
        ([], .error .attemptsFailed)
      else
        let rest := getConnectionAux outcomes remaining (attempt + 1) (delay * 2)
        (delay :: rest.1, rest.2)

/-- `DatabaseManager.get_connection` (db_connection.py lines 62-90): run the
loop with 3 attempts, first attempt index 0, initial backoff delay 1. -/
def get_connection (outcomes : Nat → AttemptOutcome) :
    List Nat × Except DbError Nat :=
  getConnectionAux outcomes 3 0 1

/-- Connection-level events, in the order they happen, of one run of
`DatabaseManager.execute_query` through `get_connection_context`
(db_connection.py lines 92-130). -/
inductive ConnEvent where
  | acquired
  | committed
  | rolledBack
  | closed
deriving DecidableEq, BEq, Repr

/-- Result value of `DatabaseManager.execute_query`: fetched rows or an
affected-row count. -/
inductive ExecResult where
  | fetched (rows : List (List String))
  | rowcount (n : Nat)
deriving DecidableEq, Repr

/-- `DatabaseManager.execute_query` (db_connection.py lines 109-130) run
inside `get_connection_context` (lines 92-107).  `acquireOk` is whether
`get_connection` succeeds; `stmtFails` is whether `cursor.execute` raises a
`mysql.connector.Error`.  The trace lists the connection events in order:
on statement error, the context manager rolls the connection back (line
101), re-raises, and its `finally` closes the connection (lines 104-107);
`execute_query` re-raises to its caller (line 130).  On the fetch path the
function returns from inside the `with` block and the `finally` still
closes; on the write path it commits, returns the rowcount, and the
`finally` closes. -/
def dmExecuteQuery (acquireOk stmtFails fetch fetchAll : Bool)
    (rows : List (List String)) (rowcount : Nat) :
    List ConnEvent × Except DbError ExecResult :=
  if ¬ acquireOk then
    ([], .error .attemptsFailed)
  else if stmtFails then
    ([.acquired, .rolledBack, .closed], .error .queryError)
  else if fetch then
    ([.acquired, .closed],
      .ok (.fetched (if fetchAll then rows else rows.take 1)))
  else
    ([.acquired, .committed, .closed], .ok (.rowcount rowcount))

/-! ### Reachable states -/

/-- One UI action, as a relation between database states: each constructor
applies one page action of `src/app.py` with arbitrary form inputs and
write oracles.  The `addBook` constructor carries `1 ≤ copies` because the
Available Copies form field has `min_value=1` (app.py line 206). -/
inductive Step : DB → DB → Prop
  | addBook (db : DB) (title author : String) (year copies : Int)
      (insertOk : Bool) (hc : 1 ≤ copies) :
      Step db (addBook db title author year copies insertOk).2
  | addMember (db : DB) (name email : String) (phone : Option String)
      (insertOk : Bool) :
      Step db (addMember db name email phone insertOk).2
  | borrow (db : DB) (m b today : Nat) (insertOk updateOk : Bool) :
      Step db (borrowPage db m b today insertOk updateOk).2
  | ret (db : DB) (rid today : Nat) (returnOk updateOk : Bool) :
      Step db (returnPage db rid today returnOk updateOk).2

/-- Database states reachable from a freshly initialised database by UI
actions. -/
inductive Reachable : DB → Prop
  | init : Reachable emptyDB
  | step {s s' : DB} : Reachable s → Step s s' → Reachable s'

/-! ### Invariants -/

/-- No book has a negative available-copy count. -/
def booksNonneg (db : DB) : Prop :=
  ∀ bk ∈ db.books, 0 ≤ bk.availableCopies

/-- Book primary keys are pairwise distinct. -/
def bookIdsNodup (db : DB) : Prop :=
  (db.books.map Book.bookId).Nodup

/-- Every book primary key is below the `AUTO_INCREMENT` counter. -/
def bookIdsBounded (db : DB) : Prop :=
  ∀ bk ∈ db.books, bk.bookId < db.nextBookId

/-- At most one open borrowing record exists per `(member, book)` pair. -/
def atMostOneOpen (db : DB) : Prop :=
  ∀ m b, (db.borrowing.filter (openFor m b)).length ≤ 1

/-- The combined inductive invariant carried through the reachability
induction. -/
def DBInv (db : DB) : Prop :=
  booksNonneg db ∧ bookIdsNodup db ∧ bookIdsBounded db ∧ atMostOneOpen db

/-! ### Concrete example states -/

/-- One book (id 1, four copies), one member (id 1), no loans — the state
reached by the Add Book / Add Member forms of the spec scenario. -/
def exampleDB : DB :=
  { books := [{ bookId := 1, title := "1984", author := "Orwell",
                publishedYear := 1949, availableCopies := 4 }],
    members := [{ memberId := 1, name := "John Doe",
                  email := "john.doe@email.com", phone := none }],
    borrowing := [],
    nextBookId := 2, nextMemberId := 2, nextBorrowId := 1 }

/-- Like `exampleDB` but the book has zero available copies. -/
def zeroCopiesDB : DB :=
  { exampleDB with
    books := [{ bookId := 1, title := "1984", author := "Orwell",
                publishedYear := 1949, availableCopies := 0 }] }

/-- Like `exampleDB` but with one already-returned borrowing record
(returned on day 5). -/
def returnedDB : DB :=
  { exampleDB with
    borrowing := [{ borrowId := 1, memberId := 1, bookId := 1,
                    borrowDate := 3, returnDate := some 5 }],
    nextBorrowId := 2 }

/-! ### Invariant preservation lemmas -/

theorem emptyDB_inv : DBInv emptyDB := by
  refine ⟨?_, ?_, ?_, ?_⟩ <;>
    simp [emptyDB, booksNonneg, bookIdsNodup, bookIdsBounded, atMostOneOpen]

theorem insertBorrow_inv (db : DB) (m b today : Nat)
    (h : DBInv db) (he : existingBorrow db m b = false) :
    DBInv (insertBorrow db m b today) := by
  obtain ⟨h1, h2, h3, h4⟩ := h
  refine ⟨h1, h2, h3, ?_⟩
  intro m' b'
  simp only [insertBorrow, List.filter_append, List.length_append]
  by_cases hmb : m' = m ∧ b' = b
  · obtain ⟨rfl, rfl⟩ := hmb
    have hnil : db.borrowing.filter (openFor m' b') = [] := by
      rw [List.filter_eq_nil_iff]
      intro r hr hpr
      have : db.borrowing.any (openFor m' b') = true :=
        List.any_eq_true.mpr ⟨r, hr, hpr⟩
      rw [existingBorrow] at he
      simp [he] at this
    rw [hnil]
    simp [openFor]
  · have hnew : openFor m' b'
        { borrowId := db.nextBorrowId, memberId := m, bookId := b,
          borrowDate := today, returnDate := none } = false := by
      by_cases hmm : m = m'
      · by_cases hbb : b = b'
        · exact absurd ⟨hmm.symm, hbb.symm⟩ hmb
        · simp [openFor, hbb]
      · simp [openFor, hmm]
    simp only [List.filter_cons, hnew, List.filter_nil]
    simpa using h4 m' b'

theorem decrementCopies_inv (db : DB) (b : Nat)
    (h : DBInv db)
    (hb : ∃ bk ∈ db.books, bk.bookId = b ∧ 0 < bk.availableCopies) :
    DBInv (decrementCopies db b) := by
  obtain ⟨h1, h2, h3, h4⟩ := h
  obtain ⟨bk0, hbk0, hid0, hpos0⟩ := hb
  refine ⟨?_, ?_, ?_, h4⟩
  · intro bk' hbk'
    simp only [decrementCopies, List.mem_map] at hbk'
    obtain ⟨bk, hbk, rfl⟩ := hbk'
    by_cases hid : bk.bookId == b
    · have : bk = bk0 := by
        apply List.inj_on_of_nodup_map h2 hbk hbk0
        rw [hid0]
        simpa using hid
      subst this
      simp only [hid, if_true]
      omega
    · simp only [hid]
      simpa using h1 bk hbk
  · have heq : (decrementCopies db b).books.map Book.bookId =
        db.books.map Book.bookId := by
      simp only [decrementCopies, List.map_map]
      apply List.map_congr_left
      intro bk _
      by_cases hid : bk.bookId == b <;> simp [Function.comp, hid]
    rw [bookIdsNodup, heq]
    exact h2
  · intro bk' hbk'
    simp only [decrementCopies, List.mem_map] at hbk'
    obtain ⟨bk, hbk, rfl⟩ := hbk'
    by_cases hid : bk.bookId == b <;> simpa [hid] using h3 bk hbk

theorem incrementCopies_inv (db : DB) (b : Nat) (h : DBInv db) :
    DBInv (incrementCopies db b) := by
  obtain ⟨h1, h2, h3, h4⟩ := h
  refine ⟨?_, ?_, ?_, h4⟩
  · intro bk' hbk'
    simp only [incrementCopies, List.mem_map] at hbk'
    obtain ⟨bk, hbk, rfl⟩ := hbk'
    have := h1 bk hbk
    by_cases hid : bk.bookId == b <;> simp [hid] <;> omega
  · have heq : (incrementCopies db b).books.map Book.bookId =
        db.books.map Book.bookId := by
      simp only [incrementCopies, List.map_map]
      apply List.map_congr_left
      intro bk _
      by_cases hid : bk.bookId == b <;> simp [Function.comp, hid]
    rw [bookIdsNodup, heq]
    exact h2
  · intro bk' hbk'
    simp only [incrementCopies, List.mem_map] at hbk'
    obtain ⟨bk, hbk, rfl⟩ := hbk'
    by_cases hid : bk.bookId == b <;> simpa [hid] using h3 bk hbk

theorem setReturned_inv (db : DB) (rid today : Nat) (h : DBInv db) :
    DBInv (setReturned db rid today) := by
  obtain ⟨h1, h2, h3, h4⟩ := h
  refine ⟨h1, h2, h3, ?_⟩
  intro m b
  rw [← List.countP_eq_length_filter] at *
  calc ((setReturned db rid today).borrowing).countP (openFor m b)
      ≤ db.borrowing.countP (openFor m b) := by
        simp only [setReturned, List.countP_map]
        apply List.countP_mono_left
        intro r _ hpr
        by_cases hr : r.borrowId == rid
        · simp [Function.comp, hr, openFor] at hpr
        · simpa [Function.comp, hr] using hpr
    _ ≤ 1 := by rw [List.countP_eq_length_filter]; exact h4 m b

theorem addBook_inv (db : DB) (title author : String) (year copies : Int)
    (io : Bool) (hc : 1 ≤ copies) (h : DBInv db) :
    DBInv (addBook db title author year copies io).2 := by
  obtain ⟨h1, h2, h3, h4⟩ := h
  unfold addBook
  split
  · split
    · exact ⟨h1, h2, h3, h4⟩
    · split
      · refine ⟨?_, ?_, ?_, h4⟩
        · intro bk hbk
          rcases List.mem_append.mp hbk with hold | hnewm
          · exact h1 bk hold
          · simp only [List.mem_singleton] at hnewm
            subst hnewm
            show (0 : Int) ≤ copies
            omega
        · rw [bookIdsNodup, List.map_append, List.nodup_append]
          refine ⟨h2, by simp, ?_⟩
          intro a ha hb2
          simp only [List.map_cons, List.map_nil, List.mem_singleton] at hb2
          obtain ⟨bk, hbk, rfl⟩ := List.mem_map.mp ha
          have := h3 bk hbk
          omega
        · intro bk hbk
          rcases List.mem_append.mp hbk with hold | hnewm
          · exact Nat.lt_succ_of_lt (h3 bk hold)
          · simp only [List.mem_singleton] at hnewm
            subst hnewm
            exact Nat.lt_succ_self _
      · exact ⟨h1, h2, h3, h4⟩
  · exact ⟨h1, h2, h3, h4⟩

theorem addMember_inv (db : DB) (name email : String) (phone : Option String)
    (io : Bool) (h : DBInv db) :
    DBInv (addMember db name email phone io).2 := by
  obtain ⟨h1, h2, h3, h4⟩ := h
  unfold addMember
  have hsame : ∀ db' : DB, db'.books = db.books → db'.borrowing = db.borrowing →
      db'.nextBookId = db.nextBookId → DBInv db' := by
    intro db' hb hr hn
    refine ⟨?_, ?_, ?_, ?_⟩
    · rw [booksNonneg, hb]; exact h1
    · rw [bookIdsNodup, hb]; exact h2
    · rw [bookIdsBounded, hb, hn]; exact h3
    · rw [atMostOneOpen]; intro m b; rw [hr]; exact h4 m b
  split
  · split
    · exact hsame _ rfl rfl rfl
    · split
      · exact hsame _ rfl rfl rfl
      · exact hsame _ rfl rfl rfl
  · exact hsame _ rfl rfl rfl

theorem borrowPage_inv (db : DB) (m b today : Nat) (io uo : Bool)
    (h : DBInv db) : DBInv (borrowPage db m b today io uo).2 := by
  unfold borrowPage
  by_cases hb : (availableBooks db).any (fun bk => bk.bookId == b) = true
  · have hbex : ∃ bk ∈ db.books, bk.bookId = b ∧ 0 < bk.availableCopies := by
      obtain ⟨bk, hbk, hid⟩ := List.any_eq_true.mp hb
      rw [availableBooks, List.mem_filter] at hbk
      exact ⟨bk, hbk.1, by simpa using hid, by simpa using hbk.2⟩
    rw [resolveBook, if_pos hb]
    cases resolveMember db m with
    | none => exact h
    | some m' =>
      simp only [borrowClick]
      split
      · exact h
      next he =>
        rw [Bool.not_eq_true] at he
        split
        · split
          · apply decrementCopies_inv _ b (insertBorrow_inv db m' b today ⟨h.1, h.2.1, h.2.2.1, h.2.2.2⟩ he)
            simpa [insertBorrow] using hbex
          · exact insertBorrow_inv db m' b today ⟨h.1, h.2.1, h.2.2.1, h.2.2.2⟩ he
        · exact h
  · rw [resolveBook, if_neg hb]
    cases resolveMember db m <;> exact h

theorem returnClick_inv (db : DB) (oid : Option Nat) (today : Nat) (ro uo : Bool)
    (h : DBInv db) : DBInv (returnClick db oid today ro uo).2 := by
  cases oid with
  | none => exact h
  | some rid =>
    simp only [returnClick]
    split
    · split
      · split
        · exact incrementCopies_inv _ _ (setReturned_inv db rid today h)
        · exact setReturned_inv db rid today h
      · exact h
    · exact h

theorem returnPage_inv (db : DB) (rid today : Nat) (ro uo : Bool)
    (h : DBInv db) : DBInv (returnPage db rid today ro uo).2 := by
  unfold returnPage
  exact returnClick_inv db (resolveReturn db rid) today ro uo h

theorem step_inv {s s' : DB} (h : DBInv s) (hs : Step s s') : DBInv s' := by
  cases hs with
  | addBook title author year copies io hc =>
    exact addBook_inv s title author year copies io hc h
  | addMember name email phone io =>
    exact addMember_inv s name email phone io h
  | borrow m b today io uo =>
    exact borrowPage_inv s m b today io uo h
  | ret rid today ro uo =>
    exact returnPage_inv s rid today ro uo h

theorem reachable_inv {s : DB} (h : Reachable s) : DBInv s := by
  induction h with
  | init => exact emptyDB_inv
  | step _ hs ih => exact step_inv ih hs

/-! ### Claims -/

/-- C1: in every reachable database state every book has a non-negative
available-copy count, and no UI action (Add Book, Add Member, Borrow,
Return) taken from a reachable state makes any count negative. -/
theorem claim_C1 {s : DB} (h : Reachable s) :
    (∀ bk ∈ s.books, 0 ≤ bk.availableCopies) ∧
    ∀ s', Step s s' → ∀ bk ∈ s'.books, 0 ≤ bk.availableCopies :=
  ⟨(reachable_inv h).1,
   fun _ hs => (step_inv (reachable_inv h) hs).1⟩

/-- Witness for C1 at the concrete reachable state obtained by adding the
book of the spec scenario to a fresh database. -/
theorem claim_C1_witness :
    (∀ bk ∈ ((addBook emptyDB "1984" "Orwell" 1949 4 true).2).books,
        0 ≤ bk.availableCopies) ∧
    ∀ s', Step (addBook emptyDB "1984" "Orwell" 1949 4 true).2 s' →
      ∀ bk ∈ s'.books, 0 ≤ bk.availableCopies :=
  claim_C1 (Reachable.step Reachable.init
    (Step.addBook emptyDB "1984" "Orwell" 1949 4 true (by decide)))

/-- C4: in every reachable database state at most one open borrowing record
exists per (member, book) pair, and the Borrow Book branch rejects the
request, leaving the state unchanged, whenever an open record for the pair
already exists. -/
theorem claim_C4 {s : DB} (h : Reachable s) :
    (∀ m b, (s.borrowing.filter (openFor m b)).length ≤ 1) ∧
    ∀ m b today io uo, existingBorrow s m b = true →
      (borrowClick s (some m) (some b) today io uo).1 =
        OpResult.alreadyBorrowed ∧
      (borrowClick s (some m) (some b) today io uo).2 = s := by
  refine ⟨(reachable_inv h).2.2.2, ?_⟩
  intro m b today io uo he
  simp [borrowClick, he]

/-- Witness for C4 at a concrete reachable state holding one open loan:
fresh database, Add Book, Add Member, then Borrow. -/
theorem claim_C4_witness :
    (∀ m b,
      (((borrowPage (addMember (addBook emptyDB "1984" "Orwell" 1949 4 true).2
          "John Doe" "john.doe@email.com" none true).2 1 1 10 true
          true).2).borrowing.filter (openFor m b)).length ≤ 1) ∧
    ∀ m b today io uo,
      existingBorrow (borrowPage (addMember
          (addBook emptyDB "1984" "Orwell" 1949 4 true).2
          "John Doe" "john.doe@email.com" none true).2 1 1 10 true true).2
          m b = true →
      (borrowClick (borrowPage (addMember
          (addBook emptyDB "1984" "Orwell" 1949 4 true).2
          "John Doe" "john.doe@email.com" none true).2 1 1 10 true true).2
          (some m) (some b) today io uo).1 = OpResult.alreadyBorrowed ∧
      (borrowClick (borrowPage (addMember
          (addBook emptyDB "1984" "Orwell" 1949 4 true).2
          "John Doe" "john.doe@email.com" none true).2 1 1 10 true true).2
          (some m) (some b) today io uo).2 =
        (borrowPage (addMember (addBook emptyDB "1984" "Orwell" 1949 4
          true).2 "John Doe" "john.doe@email.com" none true).2 1 1 10 true
          true).2 :=
  claim_C4 (Reachable.step (Reachable.step (Reachable.step Reachable.init
    (Step.addBook emptyDB "1984" "Orwell" 1949 4 true (by decide)))
    (Step.addMember _ "John Doe" "john.doe@email.com" none true))
    (Step.borrow _ 1 1 10 true true))

/-- C2: a Borrow request for a book whose available-copy count is 0 is
rejected before any write — the book never appears in the Borrow Book
dropdown, the branch reports an error — and the database state is
unchanged. -/
theorem claim_C2 (db : DB) (m b today : Nat) (io uo : Bool)
    (h : ∀ bk ∈ db.books, bk.bookId = b → bk.availableCopies = 0) :
    (borrowPage db m b today io uo).1 ≠ OpResult.success ∧
    (borrowPage db m b today io uo).2 = db := by
  have hres : resolveBook db b = none := by
    rw [resolveBook, if_neg]
    intro hany
    obtain ⟨bk, hbk, hid⟩ := List.any_eq_true.mp hany
    rw [availableBooks, List.mem_filter] at hbk
    have h0 := h bk hbk.1 (by simpa using hid)
    have hpos : (0 : Int) < bk.availableCopies := by simpa using hbk.2
    omega
  rw [borrowPage, hres]
  cases resolveMember db m <;> exact ⟨fun hcon => OpResult.noConfusion hcon, rfl⟩

/-- Witness for C2: borrowing the zero-copies book of `zeroCopiesDB` fails
and leaves the state as it was. -/
theorem claim_C2_witness :
    (borrowPage zeroCopiesDB 1 1 5 true true).1 ≠ OpResult.success ∧
    (borrowPage zeroCopiesDB 1 1 5 true true).2 = zeroCopiesDB :=
  claim_C2 zeroCopiesDB 1 1 5 true true (by decide)

/-- C5: when the Borrow preconditions hold (member in the dropdown, book in
the available-books dropdown, no open loan for the pair) and both writes
succeed, exactly the record
`(BorrowID := next id, MemberID, BookID, BorrowDate := today, ReturnDate := NULL)`
is appended and the book's copy count is decremented by one; if either
write fails, the branch does not report success. -/
theorem claim_C5 (db : DB) (m b today : Nat)
    (hm : resolveMember db m = some m)
    (hb : resolveBook db b = some b)
    (he : existingBorrow db m b = false) :
    ∀ io uo : Bool,
      (io = true ∧ uo = true →
        (borrowPage db m b today io uo).1 = OpResult.success ∧
        (borrowPage db m b today io uo).2.borrowing =
          db.borrowing ++
            [{ borrowId := db.nextBorrowId, memberId := m, bookId := b,
               borrowDate := today, returnDate := none }] ∧
        (borrowPage db m b today io uo).2.books =
          db.books.map (fun bk =>
            if bk.bookId == b then
              { bk with availableCopies := bk.availableCopies - 1 }
            else bk)) ∧
      (¬(io = true ∧ uo = true) →
        (borrowPage db m b today io uo).1 ≠ OpResult.success) := by
  intro io uo
  rw [borrowPage, hm, hb]
  simp only [borrowClick, he, Bool.false_eq_true, if_false]
  cases io <;> cases uo <;>
    simp [insertBorrow, decrementCopies]

/-- Witness for C5: the spec scenario on `exampleDB` — borrow succeeds, the
open record is created, the copy count drops from 4 to 3; the failure
oracles never report success. -/
theorem claim_C5_witness :
    (true = true ∧ true = true →
      (borrowPage exampleDB 1 1 10 true true).1 = OpResult.success ∧
      (borrowPage exampleDB 1 1 10 true true).2.borrowing =
        exampleDB.borrowing ++
          [{ borrowId := exampleDB.nextBorrowId, memberId := 1, bookId := 1,
             borrowDate := 10, returnDate := none }] ∧
      (borrowPage exampleDB 1 1 10 true true).2.books =
        exampleDB.books.map (fun bk =>
          if bk.bookId == 1 then
            { bk with availableCopies := bk.availableCopies - 1 }
          else bk)) ∧
    (¬(true = true ∧ true = true) →
      (borrowPage exampleDB 1 1 10 true true).1 ≠ OpResult.success) :=
  claim_C5 exampleDB 1 1 10 (by decide) (by decide) (by decide) true true

/-- C10: the Return Book branch, applied to a record whose `ReturnDate` is
already set, still reports success, overwrites `ReturnDate` with the
current date, and increments the associated book's copy count again — the
`UPDATE` statements are not restricted to open records, so Return is not
idempotent. -/
theorem claim_C10 (db : DB) (rid d today : Nat) (rec : BorrowRecord)
    (hfind : db.borrowing.find? (fun r => r.borrowId == rid) = some rec)
    (hret : rec.returnDate = some d) :
    (returnClick db (some rid) today true true).1 = OpResult.success ∧
    (∀ r ∈ (returnClick db (some rid) today true true).2.borrowing,
        r.borrowId = rid → r.returnDate = some today) ∧
    (returnClick db (some rid) today true true).2.books =
      db.books.map (fun bk =>
        if bk.bookId == rec.bookId then
          { bk with availableCopies := bk.availableCopies + 1 }
        else bk) := by
  simp only [returnClick, hfind, if_true]
  refine ⟨trivial, ?_, rfl⟩
  intro r hr hrid
  simp only [incrementCopies, setReturned, List.mem_map] at hr
  obtain ⟨r0, hr0, rfl⟩ := hr
  by_cases h0 : r0.borrowId == rid
  · simp [h0]
  · simp only [h0, Bool.false_eq_true, if_false] at hrid ⊢
    exact absurd hrid (by simpa using h0)

/-- Witness for C10: returning the already-returned record of `returnedDB`
reports success, overwrites the return date (day 5 becomes day 9), and
pushes the copy count from 4 to 5. -/
theorem claim_C10_witness :
    (returnClick returnedDB (some 1) 9 true true).1 = OpResult.success ∧
    (∀ r ∈ (returnClick returnedDB (some 1) 9 true true).2.borrowing,
        r.borrowId = 1 → r.returnDate = some 9) ∧
    (returnClick returnedDB (some 1) 9 true true).2.books =
      returnedDB.books.map (fun bk =>
        if bk.bookId == 1 then
          { bk with availableCopies := bk.availableCopies + 1 }
        else bk) :=
  claim_C10 returnedDB 1 5 9
    { borrowId := 1, memberId := 1, bookId := 1, borrowDate := 3,
      returnDate := some 5 }
    (by decide) (by decide)

/-- C3: starting from a state whose book `b` has `c > 0` available copies
and whose member `m` has no open loan of it, Borrow for `(m, b)` followed by
Return on the record the borrow created restores the `Books` table — in
particular the book's available-copy count — to its pre-borrow value. -/
theorem claim_C3 (db : DB) (m b t1 t2 : Nat) (bk : Book) (c : Int)
    (hm : resolveMember db m = some m)
    (hbk : bk ∈ db.books) (hid : bk.bookId = b)
    (hc : bk.availableCopies = c) (hpos : 0 < c)
    (hnodup : bookIdsNodup db)
    (hbound : ∀ r ∈ db.borrowing, r.borrowId < db.nextBorrowId)
    (he : existingBorrow db m b = false) :
    (borrowPage db m b t1 true true).1 = OpResult.success ∧
    (returnPage (borrowPage db m b t1 true true).2
        db.nextBorrowId t2 true true).1 = OpResult.success ∧
    (returnPage (borrowPage db m b t1 true true).2
        db.nextBorrowId t2 true true).2.books = db.books ∧
    ∀ bk' ∈ (returnPage (borrowPage db m b t1 true true).2
        db.nextBorrowId t2 true true).2.books,
      bk'.bookId = b → bk'.availableCopies = c := by
  have hres : resolveBook db b = some b := by
    rw [resolveBook, if_pos]
    refine List.any_eq_true.mpr ⟨bk, ?_, by simp [hid]⟩
    rw [availableBooks, List.mem_filter]
    exact ⟨hbk, by simp; omega⟩
  have hborrow : borrowPage db m b t1 true true =
      (OpResult.success, decrementCopies (insertBorrow db m b t1) b) := by
    rw [borrowPage, hm, hres]
    simp [borrowClick, he]
  rw [hborrow]
  have hbrw : (decrementCopies (insertBorrow db m b t1) b).borrowing =
      db.borrowing ++
        [{ borrowId := db.nextBorrowId, memberId := m, bookId := b,
           borrowDate := t1, returnDate := none }] := rfl
  have hresret : resolveReturn (decrementCopies (insertBorrow db m b t1) b)
      db.nextBorrowId = some db.nextBorrowId := by
    rw [resolveReturn, if_pos]
    refine List.any_eq_true.mpr
      ⟨{ borrowId := db.nextBorrowId, memberId := m, bookId := b,
         borrowDate := t1, returnDate := none }, ?_, by simp⟩
    rw [hbrw]
    exact List.mem_append_right _ (List.mem_singleton.mpr rfl)
  have hfind : (decrementCopies (insertBorrow db m b t1) b).borrowing.find?
      (fun r => r.borrowId == db.nextBorrowId) =
      some { borrowId := db.nextBorrowId, memberId := m, bookId := b,
             borrowDate := t1, returnDate := none } := by
    rw [hbrw, List.find?_append]
    have hnone : db.borrowing.find?
        (fun r => r.borrowId == db.nextBorrowId) = none := by
      refine List.find?_eq_none.mpr (fun r hr => ?_)
      have := hbound r hr
      simp only [beq_iff_eq]
      omega
    rw [hnone]
    simp
  have hreturn : returnPage (decrementCopies (insertBorrow db m b t1) b)
      db.nextBorrowId t2 true true =
      (OpResult.success,
        incrementCopies
          (setReturned (decrementCopies (insertBorrow db m b t1) b)
            db.nextBorrowId t2) b) := by
    rw [returnPage, hresret]
    simp [returnClick, hfind]
  rw [hreturn]
  have hbooks :
      (incrementCopies
        (setReturned (decrementCopies (insertBorrow db m b t1) b)
          db.nextBorrowId t2) b).books = db.books := by
    show (db.books.map (fun x =>
        if x.bookId == b then
          { x with availableCopies := x.availableCopies - 1 }
        else x)).map (fun x =>
        if x.bookId == b then
          { x with availableCopies := x.availableCopies + 1 }
        else x) = db.books
    rw [List.map_map]
    conv_rhs => rw [← List.map_id db.books]
    refine List.map_congr_left (fun x _ => ?_)
    by_cases hx : x.bookId == b
    · have h5 : x.availableCopies - 1 + 1 = x.availableCopies := by omega
      simp [Function.comp, hx, h5]
    · simp [Function.comp, hx]
  refine ⟨rfl, rfl, hbooks, ?_⟩
  intro bk' hbk' hid'
  rw [hbooks] at hbk'
  have : bk' = bk :=
    List.inj_on_of_nodup_map hnodup hbk' hbk (by rw [hid', hid])
  rw [this, hc]

/-- Witness for C3: on `exampleDB` (book 1 with 4 copies), Borrow on day 10
then Return on day 12 succeed and leave the `Books` table exactly as it
was. -/
theorem claim_C3_witness :
    (borrowPage exampleDB 1 1 10 true true).1 = OpResult.success ∧
    (returnPage (borrowPage exampleDB 1 1 10 true true).2
        exampleDB.nextBorrowId 12 true true).1 = OpResult.success ∧
    (returnPage (borrowPage exampleDB 1 1 10 true true).2
        exampleDB.nextBorrowId 12 true true).2.books = exampleDB.books ∧
    ∀ bk' ∈ (returnPage (borrowPage exampleDB 1 1 10 true true).2
        exampleDB.nextBorrowId 12 true true).2.books,
      bk'.bookId = 1 → bk'.availableCopies = 4 :=
  claim_C3 exampleDB 1 1 10 12
    { bookId := 1, title := "1984", author := "Orwell",
      publishedYear := 1949, availableCopies := 4 } 4
    (by decide) (by decide) rfl rfl (by decide)
    (by unfold bookIdsNodup; decide) (by decide) (by decide)

/-- C6: when a statement run through `DatabaseManager.execute_query` raises
a database error, the context manager rolls the connection back and only
then closes it, and the error reaches the caller of `execute_query` instead
of being swallowed. -/
theorem claim_C6 (fetch fetchAll : Bool) (rows : List (List String))
    (rowcount : Nat) :
    dmExecuteQuery true true fetch fetchAll rows rowcount =
      ([ConnEvent.acquired, ConnEvent.rolledBack, ConnEvent.closed],
        Except.error DbError.queryError) ∧
    (dmExecuteQuery true true fetch fetchAll rows rowcount).1.indexOf
        ConnEvent.rolledBack <
      (dmExecuteQuery true true fetch fetchAll rows rowcount).1.indexOf
        ConnEvent.closed := by
  refine ⟨rfl, ?_⟩
  have heq : (dmExecuteQuery true true fetch fetchAll rows rowcount).1 =
      [ConnEvent.acquired, ConnEvent.rolledBack, ConnEvent.closed] := rfl
  rw [heq]
  decide

/-- C7: whenever `DatabaseManager.execute_query` actually acquired a
connection, the trace ends with the connection being closed — the
`finally` of the context manager releases it on the success, fetch, and
statement-error paths alike. -/
theorem claim_C7 (acquireOk stmtFails fetch fetchAll : Bool)
    (rows : List (List String)) (rowcount : Nat)
    (h : acquireOk = true) :
    ConnEvent.closed ∈
      (dmExecuteQuery acquireOk stmtFails fetch fetchAll rows rowcount).1 ∧
    (dmExecuteQuery acquireOk stmtFails fetch fetchAll rows rowcount).1.getLast?
      = some ConnEvent.closed := by
  subst h
  cases stmtFails <;> cases fetch <;>
    simp [dmExecuteQuery]

/-- Witness for C7 on the fetch path. -/
theorem claim_C7_witness :
    ConnEvent.closed ∈ (dmExecuteQuery true false true true [] 0).1 ∧
    (dmExecuteQuery true false true true [] 0).1.getLast?
      = some ConnEvent.closed :=
  claim_C7 true false true true [] 0 rfl

/-- C8: `get_connection` makes at most 3 attempts; the sleeps it performs
form an initial segment of the backoff sequence 1s then 2s; and when every
attempt raises an error it sleeps exactly 1s and 2s between the attempts
and raises the last error to the caller. -/
theorem claim_C8 (outcomes : Nat → AttemptOutcome) :
    ((get_connection outcomes).1 = [] ∨ (get_connection outcomes).1 = [1] ∨
      (get_connection outcomes).1 = [1, 2]) ∧
    (∀ k, (get_connection outcomes).2 = Except.ok k → k < 3) ∧
    ((∀ i, i < 3 → outcomes i = AttemptOutcome.raisesError) →
      get_connection outcomes = ([1, 2], Except.error DbError.attemptsFailed)) := by
  have hC : (∀ i, i < 3 → outcomes i = AttemptOutcome.raisesError) →
      get_connection outcomes = ([1, 2], Except.error DbError.attemptsFailed) := by
    intro hall
    have ha0 := hall 0 (by omega)
    have ha1 := hall 1 (by omega)
    have ha2 := hall 2 (by omega)
    simp [get_connection, getConnectionAux, ha0, ha1, ha2]
  refine ⟨?_, ?_, hC⟩ <;>
    rcases h0 : outcomes 0 with _ | _ | _ <;>
      rcases h1 : outcomes 1 with _ | _ | _ <;>
        rcases h2 : outcomes 2 with _ | _ | _ <;>
          simp_all [get_connection, getConnectionAux]

/-- Witness for C8: with every attempt failing, the backoff delays are
exactly 1s then 2s and the error is raised permanently. -/
theorem claim_C8_witness :
    get_connection (fun _ => AttemptOutcome.raisesError) =
      ([1, 2], Except.error DbError.attemptsFailed) :=
  (claim_C8 (fun _ => AttemptOutcome.raisesError)).2.2 (fun _ _ => rfl)

/-- C9: the dashboard statistics are the book count, the member count, the
open-record count, and the sum of all available copies with the NULL sum of
an empty `Books` table reported as 0; on an empty database every statistic
is 0. -/
theorem claim_C9 :
    (∀ db : DB,
      (get_dashboard_stats db).total_books = db.books.length ∧
      (get_dashboard_stats db).total_members = db.members.length ∧
      (get_dashboard_stats db).borrowed_books =
        (db.borrowing.filter (fun r => r.returnDate.isNone)).length ∧
      (get_dashboard_stats db).available_copies =
        (db.books.map Book.availableCopies).sum) ∧
    get_dashboard_stats emptyDB =
      { total_books := 0, total_members := 0, borrowed_books := 0,
        available_copies := 0 } := by
  constructor
  · intro db
    refine ⟨rfl, rfl, rfl, ?_⟩
    cases hb : db.books with
    | nil => simp [get_dashboard_stats, sumAvailableCopies, hb]
    | cons x xs => simp [get_dashboard_stats, sumAvailableCopies, hb]
  · rfl

end LibraryApp
